import Mathlib

/-!
# PlotSF: verification of the ClinVar converter and the gene-model renderer

Shallow embedding of `plotsf/convert/clinvar.py` and `plotsf/genemodel/plot.py`.

The converter is modelled over rows of the tab-separated ClinVar export
(the four columns the code reads), with the Python `KeyError` modelled as
`Option.none` and the two regular expressions implemented directly as
character-list matchers (`re.search` scans start positions left to right;
both patterns have greedy `\d+` followed by a non-digit character class, so
greedy matching without backtracking is equivalent).

The renderer is modelled as a function from data to a list of abstract
drawing operations (`DrawOp`), with the Python `ValueError` modelled as
`Except.error` carrying the exact message string.  Numeric plot coordinates
are rationals.
-/

namespace PlotSF

/-! ## Character classes of the regular expressions -/

/-- The regex character class `[0-9]` (`\d` on ASCII input). -/
def isDigit09 (c : Char) : Bool := 48 ≤ c.toNat && c.toNat ≤ 57

/-- The regex character class `[A-Z]`. -/
def isUpperAZ (c : Char) : Bool := 65 ≤ c.toNat && c.toNat ≤ 90

/-- The regex character class `[a-z]`. -/
def isLowerAZ (c : Char) : Bool := 97 ≤ c.toNat && c.toNat ≤ 122

/-- The regex character class `[ACGT]`. -/
def isNuc (c : Char) : Bool := c == 'A' || c == 'C' || c == 'G' || c == 'T'

/-- Decimal value of a digit run, as computed by the Python `int` call on the
captured group. -/
def digitsVal (ds : List Char) : Nat := ds.foldl (fun n c => 10 * n + (c.toNat - 48)) 0

/-- The signed integer value of an optional minus sign and a digit run. -/
def signedVal (neg : Bool) (ds : List Char) : Int :=
  if neg then -(digitsVal ds : Int) else (digitsVal ds : Int)

/-- Match the regex fragment `(\d+)` at the head of `r`: the (greedy,
nonempty) run of digits and the remainder. -/
def posNum (r : List Char) : Option (Nat × List Char) :=
  let ds := r.takeWhile isDigit09
  if ds.isEmpty then none else some (digitsVal ds, r.dropWhile isDigit09)

/-- Match the regex fragment `(-?\d+)` at the head of `l`, returning the
captured signed integer and the remainder. -/
def ntNum : List Char → Option (Int × List Char)
  | [] => none
  | c :: t =>
    if c = '-' then (posNum t).map (fun kr => (-(kr.1 : Int), kr.2))
    else (posNum (c :: t)).map (fun kr => ((kr.1 : Int), kr.2))

/-- Check the regex fragment `[ACGT]>[ACGT]` against the remainder after the
captured number of the nucleotide pattern. -/
def ntCheckTail : Int × List Char → Option Int
  | (k, a :: g :: b :: _) => if g = '>' && isNuc a && isNuc b then some k else none
  | _ => none

/-- Match `c\.(-?\d+)[ACGT]>[ACGT]` anchored at the head of `l`
(the per-start-position attempt of `re.search`). -/
def ntMatchHead (l : List Char) : Option Int :=
  match l with
  | c0 :: c1 :: rest =>
    if c0 = 'c' && c1 = '.' then (ntNum rest).bind ntCheckTail
    else none
  | _ => none

/-- Check the regex fragment `[A-Z][a-z]\x7b2\x7d` against the remainder after
the captured number of the amino-acid pattern. -/
def aaCheckTail : Int × List Char → Option Int
  | (k, d1 :: d2 :: d3 :: _) =>
    if isUpperAZ d1 && isLowerAZ d2 && isLowerAZ d3 then some k else none
  | _ => none

/-- Match `p\.[A-Z][a-z]\x7b2\x7d(-?\d+)[A-Z][a-z]\x7b2\x7d` anchored at the
head of `l`. -/
def aaMatchHead (l : List Char) : Option Int :=
  match l with
  | c0 :: c1 :: c2 :: c3 :: c4 :: rest =>
    if c0 = 'p' && c1 = '.' && isUpperAZ c2 && isLowerAZ c3 && isLowerAZ c4 then
      (ntNum rest).bind aaCheckTail
    else none
  | _ => none

/-- `re.search`: try the anchored matcher at each start position, left to
right, returning the first (leftmost) match. -/
def reSearch (f : List Char → Option Int) : List Char → Option Int
  | [] => none
  | c :: cs =>
    match f (c :: cs) with
    | some k => some k
    | none => reSearch f cs

/-! ## The fixed lookup tables (`clinvar.py`, lines 6-26) -/

/-- `review_stars`: review-status text to star count. -/
def review_stars : List (String × Nat) :=
  [("no assertion criteria provided", 0),
   ("criteria provided, conflicting interpretations", 0),
   ("criteria provided, single submitter", 1),
   ("criteria provided, multiple submitters, no conflicts", 2),
   ("reviewed by expert panel", 3),
   ("practice guideline", 4)]

/-- `clinsig_abbreviations`: pre-parenthesis significance text to short code. -/
def clinsig_abbreviations : List (String × String) :=
  [("Conflicting interpretations of pathogenicity", "C"),
   ("Benign", "B"),
   ("Likely benign", "LB"),
   ("Benign/Likely benign", "LB"),
   ("Uncertain significance", "VUS"),
   ("Likely pathogenic", "LP"),
   ("Pathogenic/Likely pathogenic", "LP"),
   ("Pathogenic", "P"),
   ("Risk factor", "R")]

/-! ## Rows and records -/

/-- An input row of the ClinVar tabular export: the four columns
`convert_clinvar_tabular_row` reads. -/
structure ClinVarRow where
  name : String
  genes : String
  clinsig_lastreviewed : String
  review_status : String
deriving Repr, DecidableEq

/-- A converted variant record (the `pd.Series` built at the end of
`convert_clinvar_tabular_row`); `none` in a position field is the null
produced on a regex non-match. -/
structure VariantRecord where
  gene : String
  hgvs : String
  nt_position : Option Int
  aa_position : Option Int
  clinsig : String
  stars : Nat
deriving Repr, DecidableEq

/-- Python `s.split("(")[0]`: the text strictly before the first `(`
(the whole string when there is none). -/
def beforeParen (s : String) : String := ⟨s.data.takeWhile (· ≠ '(')⟩

/-- `convert_clinvar_tabular_row` (`clinvar.py`, lines 63-101); a failed
lookup in either fixed table (Python `KeyError`) is `none`. -/
def convert_clinvar_tabular_row (row : ClinVarRow) : Option VariantRecord := do
  let nt_position := reSearch ntMatchHead row.name.data
  let aa_position := reSearch aaMatchHead row.name.data
  let clinsig ← clinsig_abbreviations.lookup (beforeParen row.clinsig_lastreviewed)
  let stars ← review_stars.lookup row.review_status
  pure { gene := row.genes, hgvs := row.name, nt_position := nt_position,
         aa_position := aa_position, clinsig := clinsig, stars := stars }

/-- Does a converted record have a null in some column?  Only the two
position columns are nullable; `dropna(how="any")` keeps exactly the
records where both are present. -/
def rowComplete (r : VariantRecord) : Bool :=
  r.nt_position.isSome && r.aa_position.isSome

/-- The row-wise application `raw_df.apply(convert_clinvar_tabular_row,
axis=1)`: every row is converted in order, and a `KeyError` on any row
aborts the whole conversion with no partial table. -/
def convert_rows : List ClinVarRow → Option (List VariantRecord)
  | [] => some []
  | row :: rest => do
    let r ← convert_clinvar_tabular_row row
    let rs ← convert_rows rest
    pure (r :: rs)

/-- `read_clinvar_tabular_file` (`clinvar.py`, lines 29-60) on the parsed
rows of the file: convert every row, then drop any row with a null in any
column. -/
def read_clinvar_tabular_file (rows : List ClinVarRow) : Option (List VariantRecord) := do
  let converted ← convert_rows rows
  pure (converted.filter rowComplete)

/-! ## Renderer data model (`plot.py`) -/

/-- A domain annotation of a gene model (`start`/`end`/`name`/`color`/
`textcolor`); `end` is a Lean keyword, so the field is `end_`. -/
structure Domain where
  start : ℚ
  end_ : ℚ
  name : String
  color : String
  textcolor : String
deriving Repr, DecidableEq

/-- An end-label of a gene model. -/
structure EndLabel where
  side : String
  text : String
  textcolor : String
deriving Repr, DecidableEq

/-- A gene model mapping; an absent `domains`/`endlabels` key behaves as the
empty list. -/
structure Gene where
  name : String
  length : ℚ
  domains : List Domain
  endlabels : List EndLabel
deriving Repr, DecidableEq

/-- A row of the data frame as consumed by `plot_variants`: the three
columns it reads. -/
structure VRow where
  gene : String
  clinsig : String
  aa_position : ℚ
deriving Repr, DecidableEq

/-- An abstract drawing operation issued against the axes. -/
inductive DrawOp where
  /-- `format_axes_for_gene`: xlim, ylim and the italic title. -/
  | axes (xlim ylim : ℚ × ℚ) (title : String)
  /-- `patches.Rectangle` with lower-left corner `(x, y)`. -/
  | rect (x y width height : ℚ) (facecolor : String)
  /-- `ax.annotate` of `text` at `(x, y)` with horizontal alignment `ha`. -/
  | annotate (text : String) (x y : ℚ) (ha : String) (color : String)
  /-- `ax.plot([x, x], [y0, y1], ...)`: a lollipop stem. -/
  | stem (x y0 y1 : ℚ)
  /-- `ax.scatter(x=xs, y=ys, label=.., color=..)`: the lollipop heads. -/
  | scatter (xs ys : List ℚ) (label : String) (color : String)
deriving Repr, DecidableEq

/-- `format_axes_for_gene` (`plot.py`, lines 120-143). -/
def format_axes_for_gene (gene : Gene) (gene_model_height : ℚ) : List DrawOp :=
  [.axes (1, gene.length + 1) (-gene_model_height, 1) gene.name]

/-- One iteration of the end-label loop of `plot_gene_body` (`plot.py`,
lines 98-117): `spacing = 10`; a side other than `left`/`right` raises
`ValueError`. -/
def endlabel_op (gene_length gene_model_y gene_model_height : ℚ) (e : EndLabel) :
    Except String DrawOp :=
  if e.side = "left" then
    .ok (.annotate e.text (-10) (gene_model_y + gene_model_height / 2) "right" e.textcolor)
  else if e.side = "right" then
    .ok (.annotate e.text (gene_length + 10) (gene_model_y + gene_model_height / 2) "left"
          e.textcolor)
  else .error "endlabel side must be one of \x27left\x27 or \x27right\x27"

/-- The end-label loop of `plot_gene_body`, in input order; the first bad
`side` raises. -/
def endlabel_ops (gene_length gene_model_y gene_model_height : ℚ) :
    List EndLabel → Except String (List DrawOp)
  | [] => .ok []
  | e :: es =>
    (endlabel_op gene_length gene_model_y gene_model_height e).bind fun op =>
      (endlabel_ops gene_length gene_model_y gene_model_height es).bind fun ops =>
        .ok (op :: ops)

/-- The domain loop of `plot_gene_body`: a filled rectangle and a centred
name annotation per domain, in input order. -/
def domain_ops (gene_model_y gene_model_height : ℚ) (domains : List Domain) :
    List DrawOp :=
  domains.flatMap fun d =>
    [DrawOp.rect d.start gene_model_y (d.end_ - d.start + 1) gene_model_height d.color,
     DrawOp.annotate d.name (d.start + (d.end_ - d.start + 1) / 2)
       (gene_model_y + gene_model_height / 2) "center" d.textcolor]

/-- `plot_gene_body` (`plot.py`, lines 45-117): the outlined body
rectangle, then each domain rectangle with its centred name, then the
end-labels. -/
def plot_gene_body (gene : Gene) (gene_model_height : ℚ) (vertical_offset : ℚ) :
    Except String (List DrawOp) :=
  (endlabel_ops gene.length (-gene_model_height + vertical_offset) gene_model_height
      gene.endlabels).bind fun endOps =>
    .ok (DrawOp.rect 1 (-gene_model_height + vertical_offset) gene.length
          gene_model_height "white" ::
        domain_ops (-gene_model_height + vertical_offset) gene_model_height
          gene.domains ++ endOps)

/-- The stems and the scatter call of `plot_lollipops`, over the
length-normalized height list. -/
def lollipop_draw (positions hs : List ℚ) (label color : String) : List DrawOp :=
  (positions.zip hs).map (fun ph => DrawOp.stem ph.1 0 ph.2) ++
  [DrawOp.scatter positions hs label color]

/-- `plot_lollipops` (`plot.py`, lines 146-178): a sequence of heights must
match the positions in length (else `ValueError` reporting both lengths);
a scalar height is replicated; then one stem from 0 per position and one
scatter call. -/
def plot_lollipops (positions : List ℚ) (heights : Sum ℚ (List ℚ))
    (label color : String) : Except String (List DrawOp) :=
  match heights with
  | .inr hs =>
    if hs.length ≠ positions.length then
      .error ("unequal number of lollipop heights (" ++ toString hs.length ++
        ") and positions (" ++ toString positions.length ++ ")")
    else .ok (lollipop_draw positions hs label color)
  | .inl h => .ok (lollipop_draw positions (List.replicate positions.length h) label color)

/-- The rows selected for the "VUS/Conflicting" group of `plot_variants`. -/
def vusRows (df : List VRow) (gene : Gene) : List VRow :=
  df.filter fun r => (r.clinsig == "C" || r.clinsig == "VUS") && r.gene == gene.name

/-- The rows selected for the "Pathogenic/Likely pathogenic" group. -/
def pathRows (df : List VRow) (gene : Gene) : List VRow :=
  df.filter fun r => (r.clinsig == "P" || r.clinsig == "LP") && r.gene == gene.name

/-- The rows selected for the "Benign/Likely benign" group. -/
def benRows (df : List VRow) (gene : Gene) : List VRow :=
  df.filter fun r => (r.clinsig == "B" || r.clinsig == "LB") && r.gene == gene.name

/-- `plot_variants` (`plot.py`, lines 181-247): partition the amino-acid
positions of the matching rows by significance code, draw the axes and the
gene body, then the three lollipop groups in fixed order. -/
def plot_variants (df : List VRow) (gene : Gene) : Except String (List DrawOp) :=
  (plot_gene_body gene (3/10) 0).bind fun bodyOps =>
    (plot_lollipops ((vusRows df gene).map (·.aa_position)) (.inl (1/2))
        "VUS/Conflicting" "#1b9e77").bind fun vusOps =>
      (plot_lollipops ((pathRows df gene).map (·.aa_position)) (.inl (7/10))
          "Pathogenic/Likely pathogenic" "#d95f02").bind fun pathOps =>
        (plot_lollipops ((benRows df gene).map (·.aa_position)) (.inl (3/10))
            "Benign/Likely benign" "#7570b3").bind fun benOps =>
          .ok (format_axes_for_gene gene (3/10) ++ bodyOps ++ vusOps ++ pathOps ++ benOps)

/-- One drawing surface (subplot) of the figure. -/
structure Panel where
  label : Option Char
  ops : List DrawOp
  legend : Bool
  xlabel : Option String
deriving Repr, DecidableEq

/-- The figure built by `plot_figure`. -/
structure Figure where
  width : ℚ
  height : ℚ
  panels : List Panel
deriving Repr, DecidableEq

instance : Inhabited Panel := ⟨⟨none, [], false, none⟩⟩

/-- The `for i, g in enumerate(genes)` loop of `plot_figure` (`plot.py`,
lines 33-41): `n` is the total number of genes and `i` the index of the
first gene of the remaining list. -/
def figure_panels (df : List VRow) (n : Nat) : Nat → List Gene → Except String (List Panel)
  | _, [] => .ok []
  | i, g :: gs =>
    (plot_variants df g).bind fun ops =>
      (figure_panels df n (i + 1) gs).bind fun rest =>
        .ok (Panel.mk (if n > 1 then some (Char.ofNat (65 + i)) else none) ops
              (i == 0) (if i = n - 1 then some "amino acid position" else none) :: rest)

/-- The body of `plot_figure` after normalization: a figure sized
`10 × 2·n` whose panels are drawn top to bottom. -/
def plot_figure_list (df : List VRow) (gs : List Gene) : Except String Figure :=
  (figure_panels df gs.length 0 gs).bind fun panels =>
    .ok (Figure.mk 10 (2 * gs.length) panels)

/-- `plot_figure` (`plot.py`, lines 10-42): a single gene mapping is
normalized to a one-element list before any drawing. -/
def plot_figure (df : List VRow) (genes : Sum Gene (List Gene)) : Except String Figure :=
  plot_figure_list df
    (match genes with
     | .inl g => [g]
     | .inr l => l)

/-! ## Helper lemmas about the regex matchers -/

theorem takeWhile_append_sat {α} (p : α → Bool) :
    ∀ (ds rest : List α), (∀ c ∈ ds, p c = true) →
      (∀ c, rest.head? = some c → p c = false) →
      (ds ++ rest).takeWhile p = ds ∧ (ds ++ rest).dropWhile p = rest := by
  intro ds
  induction ds with
  | nil =>
    intro rest _ h2
    cases rest with
    | nil => simp
    | cons r t =>
      have hr := h2 r rfl
      simp [List.takeWhile_cons, List.dropWhile_cons, hr]
  | cons d ds ih =>
    intro rest h1 h2
    have hd : p d = true := h1 d (by simp)
    have ht := ih rest (fun c hc => h1 c (by simp [hc])) h2
    simp [List.takeWhile_cons, List.dropWhile_cons, hd, ht.1, ht.2]

theorem head?_dropWhile_false {α} (p : α → Bool) (l : List α) (c : α)
    (h : (l.dropWhile p).head? = some c) : p c = false := by
  have := List.head?_dropWhile_not p l
  rw [h] at this
  exact this

theorem posNum_eq_some_iff {r : List Char} {n : Nat} {rest : List Char} :
    posNum r = some (n, rest) ↔
      ∃ ds : List Char, r = ds ++ rest ∧ ds ≠ [] ∧ (∀ c ∈ ds, isDigit09 c = true) ∧
        (∀ c, rest.head? = some c → isDigit09 c = false) ∧ n = digitsVal ds := by
  constructor
  · intro h
    simp only [posNum] at h
    split at h
    · exact absurd h (by simp)
    · rename_i hne
      obtain ⟨hn, hrest⟩ : digitsVal (r.takeWhile isDigit09) = n ∧ r.dropWhile isDigit09 = rest := by
        simpa using h
      refine ⟨r.takeWhile isDigit09, ?_, by simpa using hne, ?_, ?_, hn.symm⟩
      · rw [← hrest, List.takeWhile_append_dropWhile]
      · intro c hc
        exact List.mem_takeWhile_imp hc
      · intro c hc
        rw [← hrest] at hc
        exact head?_dropWhile_false _ _ _ hc
  · rintro ⟨ds, rfl, hne, hdig, hrest, rfl⟩
    obtain ⟨ht, hd⟩ := takeWhile_append_sat isDigit09 ds rest hdig hrest
    simp only [posNum, ht, hd]
    simp [hne]

theorem isDigit09_ne_minus {c : Char} (h : isDigit09 c = true) : c ≠ '-' := by
  rintro rfl
  simp [isDigit09] at h

theorem ntNum_eq_some_iff {l : List Char} {k : Int} {rest : List Char} :
    ntNum l = some (k, rest) ↔
      ∃ (neg : Bool) (ds : List Char),
        l = (if neg then ['-'] else []) ++ ds ++ rest ∧ ds ≠ [] ∧
        (∀ c ∈ ds, isDigit09 c = true) ∧
        (∀ c, rest.head? = some c → isDigit09 c = false) ∧ k = signedVal neg ds := by
  constructor
  · intro h
    cases l with
    | nil => exact absurd h (by simp [ntNum])
    | cons c t =>
      simp only [ntNum] at h
      by_cases hc : c = '-'
      · subst hc
        rw [if_pos rfl] at h
        obtain ⟨⟨n, r⟩, hp, hk⟩ := Option.map_eq_some'.mp h
        obtain ⟨hk1, hk2⟩ : -(n : Int) = k ∧ r = rest := by simpa using hk
        subst hk2
        obtain ⟨ds, rfl, hne, hdig, hrest, rfl⟩ := posNum_eq_some_iff.mp hp
        exact ⟨true, ds, rfl, hne, hdig, hrest, by simp [signedVal, hk1.symm]⟩
      · rw [if_neg hc] at h
        obtain ⟨⟨n, r⟩, hp, hk⟩ := Option.map_eq_some'.mp h
        obtain ⟨hk1, hk2⟩ : (n : Int) = k ∧ r = rest := by simpa using hk
        subst hk2
        obtain ⟨ds, hds, hne, hdig, hrest, rfl⟩ := posNum_eq_some_iff.mp hp
        exact ⟨false, ds, by simpa using hds, hne, hdig, hrest, by simp [signedVal, hk1.symm]⟩
  · rintro ⟨neg, ds, rfl, hne, hdig, hrest, rfl⟩
    have hpos : posNum (ds ++ rest) = some (digitsVal ds, rest) :=
      posNum_eq_some_iff.mpr ⟨ds, rfl, hne, hdig, hrest, rfl⟩
    cases neg with
    | true =>
      show ntNum ('-' :: (ds ++ rest)) = some (signedVal true ds, rest)
      simp [ntNum, hpos, signedVal]
    | false =>
      cases ds with
      | nil => exact absurd rfl hne
      | cons d ds =>
        have hd : d ≠ '-' := isDigit09_ne_minus (hdig d (by simp))
        show ntNum (d :: (ds ++ rest)) = some (signedVal false (d :: ds), rest)
        simp only [ntNum, if_neg hd, signedVal, if_neg Bool.false_ne_true]
        rw [show (d :: (ds ++ rest) : List Char) = (d :: ds) ++ rest from rfl, hpos]
        rfl

theorem isNuc_not_digit {c : Char} (h : isNuc c = true) : isDigit09 c = false := by
  have hc : c = 'A' ∨ c = 'C' ∨ c = 'G' ∨ c = 'T' := by
    simpa [isNuc, or_assoc] using h
  rcases hc with rfl | rfl | rfl | rfl <;> rfl

theorem isUpperAZ_not_digit {c : Char} (h : isUpperAZ c = true) : isDigit09 c = false := by
  simp only [isUpperAZ, Bool.and_eq_true, decide_eq_true_eq] at h
  simp only [isDigit09, Bool.and_eq_false_iff, decide_eq_false_iff_not]
  omega

theorem ntMatchHead_eq_some_iff {l : List Char} {k : Int} :
    ntMatchHead l = some k ↔
      ∃ (neg : Bool) (ds : List Char) (a b : Char) (t : List Char),
        l = 'c' :: '.' :: ((if neg then ['-'] else []) ++ ds ++ a :: '>' :: b :: t) ∧
        ds ≠ [] ∧ (∀ c ∈ ds, isDigit09 c = true) ∧
        isNuc a = true ∧ isNuc b = true ∧ k = signedVal neg ds := by
  constructor
  · intro h
    unfold ntMatchHead at h
    split at h
    · rename_i c0 c1 rest
      split at h
      · rename_i hcc
        obtain ⟨hc0, hc1⟩ : c0 = 'c' ∧ c1 = '.' := by simpa using hcc
        subst hc0; subst hc1
        obtain ⟨⟨k', rest'⟩, heq, hch⟩ := Option.bind_eq_some.mp h
        rcases rest' with _ | ⟨a, _ | ⟨g, _ | ⟨b, tl⟩⟩⟩
        · exact absurd hch (by simp [ntCheckTail])
        · exact absurd hch (by simp [ntCheckTail])
        · exact absurd hch (by simp [ntCheckTail])
        · simp only [ntCheckTail] at hch
          by_cases hgab : (g = '>' && isNuc a && isNuc b) = true
          · rw [if_pos hgab] at hch
            obtain ⟨hg, ha, hb⟩ : g = '>' ∧ isNuc a = true ∧ isNuc b = true := by
              simpa [and_assoc] using hgab
            subst hg
            obtain rfl : k' = k := by simpa using hch
            obtain ⟨neg, ds, hrest, hne, hdig, _, hk⟩ := ntNum_eq_some_iff.mp heq
            exact ⟨neg, ds, a, b, tl, by rw [hrest], hne, hdig, ha, hb, hk⟩
          · rw [if_neg hgab] at hch
            exact absurd hch (by simp)
      · exact absurd h (by simp)
    · exact absurd h (by simp)
  · rintro ⟨neg, ds, a, b, t, rfl, hne, hdig, ha, hb, rfl⟩
    have hnum : ntNum ((if neg then ['-'] else []) ++ ds ++ a :: '>' :: b :: t) =
        some (signedVal neg ds, a :: '>' :: b :: t) := by
      refine ntNum_eq_some_iff.mpr ⟨neg, ds, rfl, hne, hdig, ?_, rfl⟩
      intro c hc
      obtain rfl : a = c := by simpa using hc
      exact isNuc_not_digit ha
    have h0 : ntMatchHead ('c' :: '.' :: ((if neg then ['-'] else []) ++ ds ++
        a :: '>' :: b :: t)) = (ntNum ((if neg then ['-'] else []) ++ ds ++
        a :: '>' :: b :: t)).bind ntCheckTail := by
      simp [ntMatchHead]
    rw [h0, hnum]
    simp [ntCheckTail, ha, hb]

theorem aaMatchHead_eq_some_iff {l : List Char} {k : Int} :
    aaMatchHead l = some k ↔
      ∃ (c1 c2 c3 : Char) (neg : Bool) (ds : List Char) (d1 d2 d3 : Char) (t : List Char),
        l = 'p' :: '.' :: c1 :: c2 :: c3 ::
              ((if neg then ['-'] else []) ++ ds ++ d1 :: d2 :: d3 :: t) ∧
        isUpperAZ c1 = true ∧ isLowerAZ c2 = true ∧ isLowerAZ c3 = true ∧
        ds ≠ [] ∧ (∀ c ∈ ds, isDigit09 c = true) ∧
        isUpperAZ d1 = true ∧ isLowerAZ d2 = true ∧ isLowerAZ d3 = true ∧
        k = signedVal neg ds := by
  constructor
  · intro h
    unfold aaMatchHead at h
    split at h
    · rename_i e0 e1 e2 e3 e4 rest
      split at h
      · rename_i hcc
        obtain ⟨he0, he1, h2, h3, h4⟩ :
            e0 = 'p' ∧ e1 = '.' ∧ isUpperAZ e2 = true ∧ isLowerAZ e3 = true ∧
              isLowerAZ e4 = true := by simpa [and_assoc] using hcc
        subst he0; subst he1
        obtain ⟨⟨k', rest'⟩, heq, hch⟩ := Option.bind_eq_some.mp h
        rcases rest' with _ | ⟨d1, _ | ⟨d2, _ | ⟨d3, tl⟩⟩⟩
        · exact absurd hch (by simp [aaCheckTail])
        · exact absurd hch (by simp [aaCheckTail])
        · exact absurd hch (by simp [aaCheckTail])
        · simp only [aaCheckTail] at hch
          by_cases hds : (isUpperAZ d1 && isLowerAZ d2 && isLowerAZ d3) = true
          · rw [if_pos hds] at hch
            obtain ⟨hd1, hd2, hd3⟩ :
                isUpperAZ d1 = true ∧ isLowerAZ d2 = true ∧ isLowerAZ d3 = true := by
              simpa [and_assoc] using hds
            obtain rfl : k' = k := by simpa using hch
            obtain ⟨neg, ds, hrest, hne, hdig, _, hk⟩ := ntNum_eq_some_iff.mp heq
            exact ⟨e2, e3, e4, neg, ds, d1, d2, d3, tl, by rw [hrest], h2, h3, h4,
              hne, hdig, hd1, hd2, hd3, hk⟩
          · rw [if_neg hds] at hch
            exact absurd hch (by simp)
      · exact absurd h (by simp)
    · exact absurd h (by simp)
  · rintro ⟨c1, c2, c3, neg, ds, d1, d2, d3, t, rfl, h2, h3, h4, hne, hdig, hd1, hd2, hd3, rfl⟩
    have hnum : ntNum ((if neg then ['-'] else []) ++ ds ++ d1 :: d2 :: d3 :: t) =
        some (signedVal neg ds, d1 :: d2 :: d3 :: t) := by
      refine ntNum_eq_some_iff.mpr ⟨neg, ds, rfl, hne, hdig, ?_, rfl⟩
      intro c hc
      obtain rfl : d1 = c := by simpa using hc
      exact isUpperAZ_not_digit hd1
    have h0 : aaMatchHead ('p' :: '.' :: c1 :: c2 :: c3 ::
        ((if neg then ['-'] else []) ++ ds ++ d1 :: d2 :: d3 :: t)) =
        (if ('p' : Char) = 'p' && ('.' : Char) = '.' && isUpperAZ c1 && isLowerAZ c2 &&
            isLowerAZ c3 then
          (ntNum ((if neg then ['-'] else []) ++ ds ++ d1 :: d2 :: d3 :: t)).bind aaCheckTail
        else none) := by
      simp [aaMatchHead]
    rw [h0, hnum]
    simp [aaCheckTail, h2, h3, h4, hd1, hd2, hd3]

/-! ## Helper lemmas about `re.search` -/

theorem reSearch_eq_some_iff {f : List Char → Option Int} (hnil : f [] = none) :
    ∀ {l : List Char} {k : Int},
      reSearch f l = some k ↔
        ∃ i, f (l.drop i) = some k ∧ ∀ j < i, f (l.drop j) = none := by
  intro l
  induction l with
  | nil =>
    intro k
    constructor
    · intro h
      exact absurd h (by simp [reSearch])
    · rintro ⟨i, hi, _⟩
      rw [List.drop_nil] at hi
      rw [hnil] at hi
      exact absurd hi (by simp)
  | cons c cs ih =>
    intro k
    constructor
    · intro h
      unfold reSearch at h
      split at h
      · rename_i k' hk'
        obtain rfl : k' = k := by simpa using h
        exact ⟨0, hk', fun j hj => absurd hj (Nat.not_lt_zero j)⟩
      · rename_i hnone
        obtain ⟨i, hi, hj⟩ := ih.mp h
        refine ⟨i + 1, by simpa using hi, ?_⟩
        intro j hj'
        cases j with
        | zero => simpa using hnone
        | succ j => simpa using hj j (by omega)
    · rintro ⟨i, hi, hj⟩
      unfold reSearch
      split
      · rename_i k' hk'
        cases i with
        | zero =>
          rw [List.drop_zero] at hi
          rw [hk'] at hi
          simpa using hi
        | succ i =>
          have := hj 0 (by omega)
          rw [List.drop_zero] at this
          rw [hk'] at this
          exact absurd this (by simp)
      · rename_i hnone
        cases i with
        | zero =>
          rw [List.drop_zero] at hi
          rw [hnone] at hi
          exact absurd hi (by simp)
        | succ i =>
          refine ih.mpr ⟨i, by simpa using hi, ?_⟩
          intro j hj'
          simpa using hj (j + 1) (by omega)

theorem reSearch_eq_none_iff {f : List Char → Option Int} (hnil : f [] = none) :
    ∀ {l : List Char}, reSearch f l = none ↔ ∀ i, f (l.drop i) = none := by
  intro l
  induction l with
  | nil =>
    simp only [reSearch, true_iff]
    intro i
    rw [List.drop_nil]
    exact hnil
  | cons c cs ih =>
    constructor
    · intro h i
      unfold reSearch at h
      split at h
      · exact absurd h (by simp)
      · rename_i hnone
        cases i with
        | zero => simpa using hnone
        | succ i => simpa using ih.mp h i
    · intro h
      unfold reSearch
      split
      · rename_i k' hk'
        have := h 0
        rw [List.drop_zero] at this
        rw [hk'] at this
        exact absurd this (by simp)
      · exact ih.mpr fun i => by simpa using h (i + 1)

/-! ## Helper lemmas about the converter -/

theorem convert_row_eq (row : ClinVarRow) :
    convert_clinvar_tabular_row row =
      (clinsig_abbreviations.lookup (beforeParen row.clinsig_lastreviewed)).bind fun code =>
        (review_stars.lookup row.review_status).bind fun st =>
          some { gene := row.genes, hgvs := row.name,
                 nt_position := reSearch ntMatchHead row.name.data,
                 aa_position := reSearch aaMatchHead row.name.data,
                 clinsig := code, stars := st } := rfl

theorem convert_rows_none :
    ∀ (rows : List ClinVarRow) (row : ClinVarRow), row ∈ rows →
      convert_clinvar_tabular_row row = none → convert_rows rows = none := by
  intro rows
  induction rows with
  | nil =>
    intro row hmem
    simp at hmem
  | cons x xs ih =>
    intro row hmem hnone
    rcases List.mem_cons.mp hmem with rfl | hmem
    · simp [convert_rows, hnone]
    · cases hfx : convert_clinvar_tabular_row x with
      | none => simp [convert_rows, hfx]
      | some r => simp [convert_rows, hfx, ih row hmem hnone]

theorem convert_rows_mem :
    ∀ (rows : List ClinVarRow) (out : List VariantRecord), convert_rows rows = some out →
      ∀ r ∈ out, ∃ row ∈ rows, convert_clinvar_tabular_row row = some r := by
  intro rows
  induction rows with
  | nil =>
    intro out h r hr
    obtain rfl : ([] : List VariantRecord) = out := by simpa [convert_rows] using h
    simp at hr
  | cons x xs ih =>
    intro out h r hr
    simp only [convert_rows] at h
    cases hfx : convert_clinvar_tabular_row x with
    | none => rw [hfx] at h; exact absurd h (by simp)
    | some c =>
      rw [hfx] at h
      cases hxs : convert_rows xs with
      | none => rw [hxs] at h; exact absurd h (by simp)
      | some cs =>
        rw [hxs] at h
        obtain rfl : c :: cs = out := by simpa using h
        rcases List.mem_cons.mp hr with rfl | hmem
        · exact ⟨x, by simp, hfx⟩
        · obtain ⟨row, hal, hfa⟩ := ih cs hxs r hmem
          exact ⟨row, by simp [hal], hfa⟩

theorem takeWhile_eq_self_of {α} (p : α → Bool) (l : List α)
    (h : ∀ c ∈ l, p c = true) : l.takeWhile p = l := by
  have hh := takeWhile_append_sat p l [] h (by simp)
  simpa using hh.1

theorem beforeParen_no_paren (s : String) (h : '(' ∉ s.data) : beforeParen s = s := by
  have hall : ∀ c ∈ s.data, decide (c ≠ '(') = true := by
    intro c hc
    simp only [decide_eq_true_eq]
    rintro rfl
    exact h hc
  unfold beforeParen
  rw [takeWhile_eq_self_of _ _ hall]

theorem beforeParen_append (pre suf : String) (h : '(' ∉ pre.data) :
    beforeParen (pre ++ "(" ++ suf) = pre := by
  have hall : ∀ c ∈ pre.data, decide (c ≠ '(') = true := by
    intro c hc
    simp only [decide_eq_true_eq]
    rintro rfl
    exact h hc
  have hhead : ∀ c : Char, (('(' :: suf.data : List Char)).head? = some c →
      decide (c ≠ '(') = false := by
    intro c hc
    obtain rfl : '(' = c := by simpa using hc
    simp
  unfold beforeParen
  rw [String.data_append, String.data_append,
    show ("(" : String).data = ['('] from rfl,
    List.append_assoc,
    show (['('] ++ suf.data : List Char) = '(' :: suf.data from rfl,
    (takeWhile_append_sat _ pre.data ('(' :: suf.data) hall hhead).1]

/-! ## The declarative pattern shapes (from the claimed pattern wording) -/

/-- The nucleotide-substitution pattern of the claim: literal `c.`,
optional sign, one or more digits, nucleotide, `>`, nucleotide, anchored at
the head of `l`, capturing the signed integer `k`. -/
def NtShape (l : List Char) (k : Int) : Prop :=
  ∃ (neg : Bool) (ds : List Char) (a b : Char) (t : List Char),
    l = 'c' :: '.' :: ((if neg then ['-'] else []) ++ ds ++ a :: '>' :: b :: t) ∧
    ds ≠ [] ∧ (∀ c ∈ ds, isDigit09 c = true) ∧
    isNuc a = true ∧ isNuc b = true ∧ k = signedVal neg ds

/-- The amino-acid-substitution pattern of the claim: literal `p.`, a
three-letter code (capital then two lowercase), optional sign, digits,
another three-letter code, anchored at the head of `l`, capturing `k`. -/
def AaShape (l : List Char) (k : Int) : Prop :=
  ∃ (c1 c2 c3 : Char) (neg : Bool) (ds : List Char) (d1 d2 d3 : Char) (t : List Char),
    l = 'p' :: '.' :: c1 :: c2 :: c3 ::
          ((if neg then ['-'] else []) ++ ds ++ d1 :: d2 :: d3 :: t) ∧
    isUpperAZ c1 = true ∧ isLowerAZ c2 = true ∧ isLowerAZ c3 = true ∧
    ds ≠ [] ∧ (∀ c ∈ ds, isDigit09 c = true) ∧
    isUpperAZ d1 = true ∧ isLowerAZ d2 = true ∧ isLowerAZ d3 = true ∧
    k = signedVal neg ds

/-! ## Claim theorems: the converter -/

/-- C1: `convert_row` sets `nt_position` to the leftmost match of the
nucleotide-substitution pattern (signed integer captured, possibly
negative) and `aa_position` to the leftmost match of the amino-acid
pattern; a non-match leaves the field null and raises no error. -/
theorem c1_position_extraction :
    (∀ (row : ClinVarRow) (rec : VariantRecord),
        convert_clinvar_tabular_row row = some rec →
        rec.nt_position = reSearch ntMatchHead row.name.data ∧
        rec.aa_position = reSearch aaMatchHead row.name.data) ∧
    (∀ (l : List Char) (k : Int), ntMatchHead l = some k ↔ NtShape l k) ∧
    (∀ (l : List Char) (k : Int), aaMatchHead l = some k ↔ AaShape l k) ∧
    (∀ (l : List Char) (k : Int),
        reSearch ntMatchHead l = some k ↔
          ∃ i, ntMatchHead (l.drop i) = some k ∧ ∀ j < i, ntMatchHead (l.drop j) = none) ∧
    (∀ l : List Char,
        reSearch ntMatchHead l = none ↔ ∀ i, ntMatchHead (l.drop i) = none) ∧
    (∀ (l : List Char) (k : Int),
        reSearch aaMatchHead l = some k ↔
          ∃ i, aaMatchHead (l.drop i) = some k ∧ ∀ j < i, aaMatchHead (l.drop j) = none) ∧
    (∀ l : List Char,
        reSearch aaMatchHead l = none ↔ ∀ i, aaMatchHead (l.drop i) = none) ∧
    (∀ row : ClinVarRow,
        (clinsig_abbreviations.lookup (beforeParen row.clinsig_lastreviewed)).isSome = true →
        (review_stars.lookup row.review_status).isSome = true →
        (convert_clinvar_tabular_row row).isSome = true) := by
  refine ⟨?_, ?_, ?_, ?_, ?_, ?_, ?_, ?_⟩
  · intro row rec h
    rw [convert_row_eq] at h
    obtain ⟨code, hc, h⟩ := Option.bind_eq_some.mp h
    obtain ⟨st, hs, h⟩ := Option.bind_eq_some.mp h
    obtain rfl : VariantRecord.mk row.genes row.name (reSearch ntMatchHead row.name.data)
        (reSearch aaMatchHead row.name.data) code st = rec := by simpa using h
    exact ⟨rfl, rfl⟩
  · intro l k
    exact ntMatchHead_eq_some_iff
  · intro l k
    exact aaMatchHead_eq_some_iff
  · intro l k
    exact reSearch_eq_some_iff rfl
  · intro l
    exact reSearch_eq_none_iff rfl
  · intro l k
    exact reSearch_eq_some_iff rfl
  · intro l
    exact reSearch_eq_none_iff rfl
  · intro row h1 h2
    obtain ⟨code, hc⟩ := Option.isSome_iff_exists.mp h1
    obtain ⟨st, hs⟩ := Option.isSome_iff_exists.mp h2
    rw [convert_row_eq, hc, hs]
    rfl

/-- Example row for the C1 witness: both patterns match. -/
def c1row : ClinVarRow :=
  { name := "NM_000546.6(TP53):c.215C>G (p.Pro72Arg)", genes := "TP53",
    clinsig_lastreviewed := "Pathogenic(Last reviewed: 2020)",
    review_status := "practice guideline" }

/-- The record `convert_row` produces for `c1row`. -/
def c1rec : VariantRecord :=
  { gene := "TP53", hgvs := "NM_000546.6(TP53):c.215C>G (p.Pro72Arg)",
    nt_position := some 215, aa_position := some 72, clinsig := "P", stars := 4 }

theorem c1_position_extraction_witness :
    c1rec.nt_position = reSearch ntMatchHead c1row.name.data ∧
    c1rec.aa_position = reSearch aaMatchHead c1row.name.data :=
  c1_position_extraction.1 c1row c1rec (by rfl)

/-- C2: every row of the table returned by `read_tabular_file` is a whole
converted record with non-null values in all columns (the string and star
columns are total; the two nullable position columns are both present), so
a row whose amino-acid pattern matched but whose nucleotide pattern did
not is dropped entirely, never partially retained. -/
theorem c2_no_null_rows :
    ∀ (rows : List ClinVarRow) (out : List VariantRecord),
      read_clinvar_tabular_file rows = some out →
      ∀ r ∈ out,
        (r.nt_position.isSome = true ∧ r.aa_position.isSome = true) ∧
        ∃ row ∈ rows, convert_clinvar_tabular_row row = some r := by
  intro rows out h r hr
  unfold read_clinvar_tabular_file at h
  cases hm : convert_rows rows with
  | none =>
    rw [hm] at h
    exact absurd h (by simp)
  | some conv =>
    rw [hm] at h
    obtain rfl : conv.filter rowComplete = out := by simpa using h
    obtain ⟨hmem, hcomp⟩ := List.mem_filter.mp hr
    have hpos : r.nt_position.isSome = true ∧ r.aa_position.isSome = true := by
      simpa [rowComplete] using hcomp
    exact ⟨hpos, convert_rows_mem rows conv hm r hmem⟩

/-- A row whose name has both positions, for the C2 witness. -/
def c2rowBoth : ClinVarRow :=
  { name := "c.215C>G (p.Pro72Arg)", genes := "TP53",
    clinsig_lastreviewed := "Benign", review_status := "practice guideline" }

/-- A row whose name has only an amino-acid position (dropped by the
null filter). -/
def c2rowAAonly : ClinVarRow :=
  { name := "p.Pro72Arg", genes := "TP53",
    clinsig_lastreviewed := "Benign", review_status := "practice guideline" }

/-- The surviving record of the C2 witness input. -/
def c2recBoth : VariantRecord :=
  { gene := "TP53", hgvs := "c.215C>G (p.Pro72Arg)", nt_position := some 215,
    aa_position := some 72, clinsig := "B", stars := 4 }

theorem c2_no_null_rows_witness :
    (c2recBoth.nt_position.isSome = true ∧ c2recBoth.aa_position.isSome = true) ∧
    ∃ row ∈ [c2rowBoth, c2rowAAonly],
      convert_clinvar_tabular_row row = some c2recBoth :=
  c2_no_null_rows [c2rowBoth, c2rowAAonly] [c2recBoth] (by rfl) c2recBoth (by simp)

/-- C3: a row whose pre-parenthesis significance text or verbatim review
status is not a key of the fixed tables makes the whole conversion fail
with no partial table; rows whose texts are in the tables get exactly the
mapped code and star count; and the tables have exactly the nine and six
keys of the specification. -/
theorem c3_unmapped_aborts :
    (∀ rows : List ClinVarRow,
        (∃ row ∈ rows,
            clinsig_abbreviations.lookup (beforeParen row.clinsig_lastreviewed) = none ∨
            review_stars.lookup row.review_status = none) →
        read_clinvar_tabular_file rows = none) ∧
    (∀ (row : ClinVarRow) (code : String) (st : Nat),
        clinsig_abbreviations.lookup (beforeParen row.clinsig_lastreviewed) = some code →
        review_stars.lookup row.review_status = some st →
        convert_clinvar_tabular_row row =
          some (VariantRecord.mk row.genes row.name
            (reSearch ntMatchHead row.name.data)
            (reSearch aaMatchHead row.name.data) code st)) ∧
    clinsig_abbreviations.map Prod.fst =
      ["Conflicting interpretations of pathogenicity", "Benign", "Likely benign",
       "Benign/Likely benign", "Uncertain significance", "Likely pathogenic",
       "Pathogenic/Likely pathogenic", "Pathogenic", "Risk factor"] ∧
    review_stars.map Prod.fst =
      ["no assertion criteria provided", "criteria provided, conflicting interpretations",
       "criteria provided, single submitter",
       "criteria provided, multiple submitters, no conflicts",
       "reviewed by expert panel", "practice guideline"] := by
  refine ⟨?_, ?_, rfl, rfl⟩
  · rintro rows ⟨row, hmem, hbad⟩
    have hnone : convert_clinvar_tabular_row row = none := by
      rw [convert_row_eq]
      rcases hbad with hbad | hbad
      · rw [hbad]
        rfl
      · cases hc : clinsig_abbreviations.lookup (beforeParen row.clinsig_lastreviewed) with
        | none => rfl
        | some code => rw [hbad]; rfl
    unfold read_clinvar_tabular_file
    rw [convert_rows_none rows row hmem hnone]
    rfl
  · intro row code st h1 h2
    rw [convert_row_eq, h1, h2]
    rfl

/-- A row with an unmapped significance text, for the C3 witness. -/
def c3rowBad : ClinVarRow :=
  { name := "c.215C>G", genes := "TP53",
    clinsig_lastreviewed := "Not a known category", review_status := "practice guideline" }

theorem c3_unmapped_aborts_witness :
    read_clinvar_tabular_file [c3rowBad] = none :=
  c3_unmapped_aborts.1 [c3rowBad] ⟨c3rowBad, by simp, Or.inl (by rfl)⟩

/-- C4 counterexample: the raw significance text `Pathogenic (3-star)`,
which has a parenthetical suffix, does not map to `P`: the split leaves
the trailing space, the key `Pathogenic ` is unmapped, and the conversion
raises, while the same row with text `Pathogenic` converts to `P`. -/
theorem c4_paren_suffix_counterexample :
    convert_clinvar_tabular_row
      (ClinVarRow.mk "c.1A>G" "G1" "Pathogenic (3-star)" "practice guideline") = none ∧
    convert_clinvar_tabular_row
      (ClinVarRow.mk "c.1A>G" "G1" "Pathogenic" "practice guideline") =
      some (VariantRecord.mk "G1" "c.1A>G" (some 1) none "P" 4) :=
  ⟨rfl, rfl⟩

/-- C4 (amended): `convert_row` uses as lookup key the text strictly
before the first `(`, with no whitespace trimming: a suffix attached
without a space (as in the ClinVar export format) is ignored, so
`Pathogenic(Last reviewed...)` maps to `P`, but a spaced suffix such as
`Pathogenic (3-star)` leaves a trailing space in the key and raises. -/
theorem c4_paren_suffix_amended :
    (∀ pre suf : String, '(' ∉ pre.data →
        beforeParen (pre ++ "(" ++ suf) = pre) ∧
    convert_clinvar_tabular_row
      (ClinVarRow.mk "c.1A>G" "G1" "Pathogenic(Last reviewed: 2020)"
        "practice guideline") =
      some (VariantRecord.mk "G1" "c.1A>G" (some 1) none "P" 4) ∧
    convert_clinvar_tabular_row
      (ClinVarRow.mk "c.1A>G" "G1" "Pathogenic (3-star)" "practice guideline") = none :=
  ⟨beforeParen_append, rfl, rfl⟩

theorem c4_paren_suffix_amended_witness :
    beforeParen ("Pathogenic" ++ "(" ++ "Last reviewed: 2020)") = "Pathogenic" :=
  c4_paren_suffix_amended.1 "Pathogenic" "Last reviewed: 2020)" (by decide)

/-- C10: when the raw significance text contains no `(` at all, the whole
verbatim string is the lookup key: `Pathogenic` maps to `P`, while the
same text with surrounding whitespace is an unmapped key and raises. -/
theorem c10_verbatim_key_without_paren :
    (∀ s : String, '(' ∉ s.data → beforeParen s = s) ∧
    convert_clinvar_tabular_row
      (ClinVarRow.mk "c.1A>G" "G1" "Pathogenic" "practice guideline") =
      some (VariantRecord.mk "G1" "c.1A>G" (some 1) none "P" 4) ∧
    convert_clinvar_tabular_row
      (ClinVarRow.mk "c.1A>G" "G1" " Pathogenic " "practice guideline") = none :=
  ⟨beforeParen_no_paren, rfl, rfl⟩

theorem c10_verbatim_key_without_paren_witness :
    beforeParen "Uncertain significance" = "Uncertain significance" :=
  c10_verbatim_key_without_paren.1 "Uncertain significance" (by decide)

/-! ## Helper lemmas about the renderer -/

theorem except_ok_bind {ε α β} (a : α) (f : α → Except ε β) :
    (Except.ok a : Except ε α).bind f = f a := rfl

theorem except_error_bind {ε α β} (e : ε) (f : α → Except ε β) :
    (Except.error e : Except ε α).bind f = Except.error e := rfl

theorem zip_replicate_stem (ps : List ℚ) (h : ℚ) :
    (ps.zip (List.replicate ps.length h)).map (fun ph => DrawOp.stem ph.1 0 ph.2) =
      ps.map (fun p => DrawOp.stem p 0 h) := by
  induction ps with
  | nil => rfl
  | cons p ps ih => simp [List.replicate_succ, ih]

theorem plot_lollipops_scalar (ps : List ℚ) (h : ℚ) (lbl col : String) :
    plot_lollipops ps (.inl h) lbl col =
      .ok (ps.map (fun p => DrawOp.stem p 0 h) ++
           [DrawOp.scatter ps (List.replicate ps.length h) lbl col]) := by
  have h0 : plot_lollipops ps (.inl h) lbl col =
      Except.ok (lollipop_draw ps (List.replicate ps.length h) lbl col) := rfl
  rw [h0]
  unfold lollipop_draw
  rw [zip_replicate_stem]

theorem plot_lollipops_mismatch (ps hs : List ℚ) (lbl col : String)
    (hlen : hs.length ≠ ps.length) :
    plot_lollipops ps (.inr hs) lbl col =
      .error ("unequal number of lollipop heights (" ++ toString hs.length ++
        ") and positions (" ++ toString ps.length ++ ")") := by
  have h0 : plot_lollipops ps (.inr hs) lbl col =
      if hs.length ≠ ps.length then
        Except.error ("unequal number of lollipop heights (" ++ toString hs.length ++
          ") and positions (" ++ toString ps.length ++ ")")
      else Except.ok (lollipop_draw ps hs lbl col) := rfl
  rw [h0, if_pos hlen]

/-! ## Claim theorems: the renderer -/

/-- C7: `draw_lollipops` with a scalar height draws, for every position,
one stem from 0 to that same height (and one scatter of the replicated
heights); with a height sequence whose length differs from the positions,
it fails with the `ValueError` message reporting both lengths and draws
nothing. -/
theorem c7_lollipop_heights :
    (∀ (ps : List ℚ) (h : ℚ) (lbl col : String),
        plot_lollipops ps (.inl h) lbl col =
          .ok (ps.map (fun p => DrawOp.stem p 0 h) ++
               [DrawOp.scatter ps (List.replicate ps.length h) lbl col])) ∧
    (∀ (ps hs : List ℚ) (lbl col : String), hs.length ≠ ps.length →
        plot_lollipops ps (.inr hs) lbl col =
          .error ("unequal number of lollipop heights (" ++ toString hs.length ++
            ") and positions (" ++ toString ps.length ++ ")")) :=
  ⟨plot_lollipops_scalar, plot_lollipops_mismatch⟩

theorem c7_lollipop_heights_witness :
    plot_lollipops [10, 20, 30] (.inl 5) "stems" "black" =
      .ok [DrawOp.stem 10 0 5, DrawOp.stem 20 0 5, DrawOp.stem 30 0 5,
           DrawOp.scatter [10, 20, 30] [5, 5, 5] "stems" "black"] ∧
    plot_lollipops [10, 20, 30] (.inr [1, 2]) "stems" "black" =
      .error "unequal number of lollipop heights (2) and positions (3)" :=
  ⟨c7_lollipop_heights.1 [10, 20, 30] 5 "stems" "black",
   c7_lollipop_heights.2 [10, 20, 30] [1, 2] "stems" "black" (by decide)⟩

/-- C5: `draw_variants` filters the table to the rows of the given gene and
partitions their amino-acid positions into the three fixed groups, drawn
after the axes and the gene body in the order VUS (height 0.5, color
1b9e77), Pathogenic (0.7, d95f02), Benign (0.3, 7570b3); the three groups
are pairwise disjoint and rows with code `R` fall in none of them. -/
theorem c5_variant_partition :
    (∀ (df : List VRow) (gene : Gene) (bodyOps : List DrawOp),
        plot_gene_body gene (3/10) 0 = .ok bodyOps →
        plot_variants df gene = .ok (
          format_axes_for_gene gene (3/10) ++ bodyOps ++
          (((vusRows df gene).map (·.aa_position)).map
              (fun p => DrawOp.stem p 0 (1/2)) ++
            [DrawOp.scatter ((vusRows df gene).map (·.aa_position))
              (List.replicate ((vusRows df gene).map (·.aa_position)).length (1/2))
              "VUS/Conflicting" "#1b9e77"]) ++
          (((pathRows df gene).map (·.aa_position)).map
              (fun p => DrawOp.stem p 0 (7/10)) ++
            [DrawOp.scatter ((pathRows df gene).map (·.aa_position))
              (List.replicate ((pathRows df gene).map (·.aa_position)).length (7/10))
              "Pathogenic/Likely pathogenic" "#d95f02"]) ++
          (((benRows df gene).map (·.aa_position)).map
              (fun p => DrawOp.stem p 0 (3/10)) ++
            [DrawOp.scatter ((benRows df gene).map (·.aa_position))
              (List.replicate ((benRows df gene).map (·.aa_position)).length (3/10))
              "Benign/Likely benign" "#7570b3"]))) ∧
    (∀ (df : List VRow) (gene : Gene) (r : VRow), r ∈ df → r.clinsig = "R" →
        r ∉ vusRows df gene ∧ r ∉ pathRows df gene ∧ r ∉ benRows df gene) ∧
    (∀ (df : List VRow) (gene : Gene) (r : VRow),
        ¬(r ∈ vusRows df gene ∧ r ∈ pathRows df gene) ∧
        ¬(r ∈ vusRows df gene ∧ r ∈ benRows df gene) ∧
        ¬(r ∈ pathRows df gene ∧ r ∈ benRows df gene)) := by
  refine ⟨?_, ?_, ?_⟩
  · intro df gene bodyOps hbody
    unfold plot_variants
    rw [hbody, except_ok_bind, plot_lollipops_scalar, except_ok_bind,
      plot_lollipops_scalar, except_ok_bind, plot_lollipops_scalar, except_ok_bind]
  · intro df gene r _ hR
    refine ⟨?_, ?_, ?_⟩ <;>
      · intro hmem
        have hp := (List.mem_filter.mp hmem).2
        rw [hR] at hp
        simp at hp
  · intro df gene r
    refine ⟨?_, ?_, ?_⟩ <;>
      · rintro ⟨h1, h2⟩
        have e1 := (List.mem_filter.mp h1).2
        have e2 := (List.mem_filter.mp h2).2
        simp only [Bool.and_eq_true, Bool.or_eq_true, beq_iff_eq] at e1 e2
        rcases e1.1 with h | h <;> rw [h] at e2 <;> simp at e2

/-- The data frame for the C5 witness: one pathogenic PTEN row. -/
def c5df : List VRow := [VRow.mk "PTEN" "P" 38]

/-- The gene model for the C5 witness. -/
def c5gene : Gene := Gene.mk "PTEN" 403 [] []

theorem c5_variant_partition_witness :
    plot_variants c5df c5gene = .ok (
      format_axes_for_gene c5gene (3/10) ++
      [DrawOp.rect 1 (-(3/10) + 0) 403 (3/10) "white"] ++
      (((vusRows c5df c5gene).map (·.aa_position)).map
          (fun p => DrawOp.stem p 0 (1/2)) ++
        [DrawOp.scatter ((vusRows c5df c5gene).map (·.aa_position))
          (List.replicate ((vusRows c5df c5gene).map (·.aa_position)).length (1/2))
          "VUS/Conflicting" "#1b9e77"]) ++
      (((pathRows c5df c5gene).map (·.aa_position)).map
          (fun p => DrawOp.stem p 0 (7/10)) ++
        [DrawOp.scatter ((pathRows c5df c5gene).map (·.aa_position))
          (List.replicate ((pathRows c5df c5gene).map (·.aa_position)).length (7/10))
          "Pathogenic/Likely pathogenic" "#d95f02"]) ++
      (((benRows c5df c5gene).map (·.aa_position)).map
          (fun p => DrawOp.stem p 0 (3/10)) ++
        [DrawOp.scatter ((benRows c5df c5gene).map (·.aa_position))
          (List.replicate ((benRows c5df c5gene).map (·.aa_position)).length (3/10))
          "Benign/Likely benign" "#7570b3"])) :=
  c5_variant_partition.1 c5df c5gene [DrawOp.rect 1 (-(3/10) + 0) 403 (3/10) "white"]
    (by rfl)

theorem endlabel_ops_error (L y g : ℚ) :
    ∀ es : List EndLabel, (∃ e ∈ es, e.side ≠ "left" ∧ e.side ≠ "right") →
      endlabel_ops L y g es =
        .error "endlabel side must be one of \x27left\x27 or \x27right\x27" := by
  intro es
  induction es with
  | nil =>
    rintro ⟨e, he, _⟩
    simp at he
  | cons e es ih =>
    rintro ⟨e0, he0, hbad⟩
    rcases List.mem_cons.mp he0 with rfl | hmem
    · unfold endlabel_ops endlabel_op
      rw [if_neg hbad.1, if_neg hbad.2, except_error_bind]
    · by_cases hL : e.side = "left"
      · unfold endlabel_ops endlabel_op
        rw [if_pos hL, except_ok_bind, ih ⟨e0, hmem, hbad⟩, except_error_bind]
      · by_cases hR : e.side = "right"
        · unfold endlabel_ops endlabel_op
          rw [if_neg hL, if_pos hR, except_ok_bind, ih ⟨e0, hmem, hbad⟩,
            except_error_bind]
        · unfold endlabel_ops endlabel_op
          rw [if_neg hL, if_neg hR, except_error_bind]

/-- C8 counterexample: a left end-label is anchored at x = -10, which is
not 10 units left of position 1 (that would be x = -9): the body rectangle
starts at x = 1, yet the label anchor is offset from 0, not from 1. -/
theorem c8_left_label_counterexample :
    plot_gene_body (Gene.mk "G" 100 [] [EndLabel.mk "left" "N" "black"]) (3/10) 0 =
      .ok [DrawOp.rect 1 (-(3/10) + 0) 100 (3/10) "white",
           DrawOp.annotate "N" (-10) ((-(3/10) + 0) + (3/10) / 2) "right" "black"] ∧
    (-10 : ℚ) ≠ 1 - 10 :=
  ⟨rfl, by norm_num⟩

/-- C8 (amended): a left end-label is anchored at x = -10 (10 units left
of the origin, hence 11 units left of position 1) with right alignment; a
right end-label at x = length + 10 with left alignment; any other side
value raises the `ValueError` with the exact message, at draw time. -/
theorem c8_endlabel_sides_amended :
    (∀ (L y g : ℚ) (e : EndLabel), e.side = "left" →
        endlabel_op L y g e =
          .ok (DrawOp.annotate e.text (-10) (y + g / 2) "right" e.textcolor)) ∧
    (∀ (L y g : ℚ) (e : EndLabel), e.side = "right" →
        endlabel_op L y g e =
          .ok (DrawOp.annotate e.text (L + 10) (y + g / 2) "left" e.textcolor)) ∧
    (∀ (L y g : ℚ) (e : EndLabel), e.side ≠ "left" → e.side ≠ "right" →
        endlabel_op L y g e =
          .error "endlabel side must be one of \x27left\x27 or \x27right\x27") ∧
    (∀ (gene : Gene) (g v : ℚ),
        (∃ e ∈ gene.endlabels, e.side ≠ "left" ∧ e.side ≠ "right") →
        plot_gene_body gene g v =
          .error "endlabel side must be one of \x27left\x27 or \x27right\x27") := by
  refine ⟨?_, ?_, ?_, ?_⟩
  · intro L y g e he
    unfold endlabel_op
    rw [if_pos he]
  · intro L y g e he
    have hL : e.side ≠ "left" := by
      rw [he]
      decide
    unfold endlabel_op
    rw [if_neg hL, if_pos he]
  · intro L y g e hL hR
    unfold endlabel_op
    rw [if_neg hL, if_neg hR]
  · intro gene g v hex
    unfold plot_gene_body
    rw [endlabel_ops_error _ _ _ _ hex, except_error_bind]

theorem c8_endlabel_sides_amended_witness :
    endlabel_op 403 0 1 (EndLabel.mk "left" "Nterm" "black") =
      .ok (DrawOp.annotate "Nterm" (-10) (0 + 1 / 2) "right" "black") ∧
    endlabel_op 403 0 1 (EndLabel.mk "top" "X" "black") =
      .error "endlabel side must be one of \x27left\x27 or \x27right\x27" :=
  ⟨c8_endlabel_sides_amended.1 403 0 1 (EndLabel.mk "left" "Nterm" "black") rfl,
   c8_endlabel_sides_amended.2.2.1 403 0 1 (EndLabel.mk "top" "X" "black")
     (by decide) (by decide)⟩

instance : Inhabited Gene := ⟨Gene.mk "" 0 [] []⟩

theorem figure_panels_spec (df : List VRow) (n : Nat) :
    ∀ (gs : List Gene) (i0 : Nat) (ps : List Panel),
      figure_panels df n i0 gs = .ok ps →
      ps.length = gs.length ∧
      ∀ j, j < gs.length →
        (ps.getD j default).label =
            (if n > 1 then some (Char.ofNat (65 + (i0 + j))) else none) ∧
        (ps.getD j default).legend = (i0 + j == 0) ∧
        (ps.getD j default).xlabel =
            (if i0 + j = n - 1 then some "amino acid position" else none) ∧
        plot_variants df (gs.getD j default) = .ok (ps.getD j default).ops := by
  intro gs
  induction gs with
  | nil =>
    intro i0 ps h
    obtain rfl : ([] : List Panel) = ps := by simpa [figure_panels] using h
    exact ⟨rfl, fun j hj => absurd hj (by simp)⟩
  | cons g gs ih =>
    intro i0 ps h
    unfold figure_panels at h
    cases hv : plot_variants df g with
    | error e =>
      rw [hv, except_error_bind] at h
      exact absurd h (by simp)
    | ok ops =>
      rw [hv, except_ok_bind] at h
      cases hf : figure_panels df n (i0 + 1) gs with
      | error e =>
        rw [hf, except_error_bind] at h
        exact absurd h (by simp)
      | ok rest =>
        rw [hf, except_ok_bind] at h
        obtain rfl : Panel.mk (if n > 1 then some (Char.ofNat (65 + i0)) else none) ops
            (i0 == 0) (if i0 = n - 1 then some "amino acid position" else none) :: rest
            = ps := by simpa using h
        obtain ⟨hlen, hspec⟩ := ih (i0 + 1) rest hf
        refine ⟨by simpa using hlen, ?_⟩
        intro j hj
        cases j with
        | zero =>
          refine ⟨by simp, by simp, by simp, ?_⟩
          simpa using hv
        | succ j =>
          have hj' : j < gs.length := by simpa using hj
          obtain ⟨hl, hleg, hx, hops⟩ := hspec j hj'
          have hidx : i0 + 1 + j = i0 + (j + 1) := by omega
          rw [hidx] at hl hleg hx
          simp only [List.getD_cons_succ]
          exact ⟨hl, hleg, hx, hops⟩

/-- C6 counterexample: with 27 gene models the panel at index 26 is
labeled `chr(65 + 26)`, the character `[`, which is not an uppercase
letter, so the surfaces are not all labeled with uppercase letters. -/
theorem c6_label_counterexample :
    Except.map (fun fig => ((Figure.panels fig).getD 26 default).label)
        (plot_figure [] (.inr (List.replicate 27 (Gene.mk "G" 1 [] [])))) =
      .ok (some (Char.ofNat 91)) ∧
    isUpperAZ (Char.ofNat 91) = false ∧ (Char.ofNat 91).isUpper = false :=
  ⟨rfl, rfl, rfl⟩

/-- C6 (amended): for a non-empty sequence of n gene models, `render`
produces a figure of size 10 by 2n with n stacked panels in input order;
when n exceeds 1 the panel at index i is labeled with the successive
character `chr(65 + i)` (an uppercase letter for the first 26 indices,
past `Z` beyond that); the legend flag is set exactly on the first panel
and the x-axis label is attached exactly to the last panel. -/
theorem c6_figure_layout_amended :
    (∀ (df : List VRow) (gs : List Gene) (fig : Figure),
        gs ≠ [] → plot_figure df (.inr gs) = .ok fig →
        fig.width = 10 ∧ fig.height = 2 * gs.length ∧
        fig.panels.length = gs.length ∧
        (∀ j, j < gs.length →
          (fig.panels.getD j default).label =
              (if gs.length > 1 then some (Char.ofNat (65 + j)) else none) ∧
          ((fig.panels.getD j default).legend = true ↔ j = 0) ∧
          ((fig.panels.getD j default).xlabel = some "amino acid position" ↔
              j = gs.length - 1) ∧
          plot_variants df (gs.getD j default) = .ok (fig.panels.getD j default).ops)) ∧
    (List.range 26).all (fun i => isUpperAZ (Char.ofNat (65 + i))) = true := by
  refine ⟨?_, rfl⟩
  intro df gs fig hne h
  have h' : plot_figure_list df gs = .ok fig := h
  unfold plot_figure_list at h'
  cases hf : figure_panels df gs.length 0 gs with
  | error e =>
    rw [hf, except_error_bind] at h'
    exact absurd h' (by simp)
  | ok ps =>
    rw [hf, except_ok_bind] at h'
    obtain rfl : Figure.mk 10 (2 * gs.length) ps = fig := by simpa using h'
    obtain ⟨hlen, hspec⟩ := figure_panels_spec df gs.length gs 0 ps hf
    refine ⟨rfl, rfl, hlen, ?_⟩
    intro j hj
    obtain ⟨hl, hleg, hx, hops⟩ := hspec j hj
    refine ⟨by simpa using hl, ?_, ?_, hops⟩
    · rw [hleg]
      simp
    · rw [hx]
      by_cases hje : j = gs.length - 1
      · simp [hje]
      · simp [hje]

/-- The data frame of the C6 witness. -/
def c6df : List VRow := []

/-- The two gene models of the C6 witness. -/
def c6genes : List Gene := [Gene.mk "A1" 10 [] [], Gene.mk "B2" 20 [] []]

/-- The figure `plot_figure` builds for the C6 witness input. -/
def c6fig : Figure :=
  Figure.mk 10 (2 * (c6genes.length : ℚ))
    [Panel.mk (some (Char.ofNat (65 + 0)))
      [DrawOp.axes (1, 10 + 1) (-(3/10), 1) "A1",
       DrawOp.rect 1 (-(3/10) + 0) 10 (3/10) "white",
       DrawOp.scatter [] [] "VUS/Conflicting" "#1b9e77",
       DrawOp.scatter [] [] "Pathogenic/Likely pathogenic" "#d95f02",
       DrawOp.scatter [] [] "Benign/Likely benign" "#7570b3"] true none,
     Panel.mk (some (Char.ofNat (65 + 1)))
      [DrawOp.axes (1, 20 + 1) (-(3/10), 1) "B2",
       DrawOp.rect 1 (-(3/10) + 0) 20 (3/10) "white",
       DrawOp.scatter [] [] "VUS/Conflicting" "#1b9e77",
       DrawOp.scatter [] [] "Pathogenic/Likely pathogenic" "#d95f02",
       DrawOp.scatter [] [] "Benign/Likely benign" "#7570b3"] false
      (some "amino acid position")]

theorem c6_figure_layout_amended_witness :
    (c6fig.panels.getD 0 default).label =
      (if c6genes.length > 1 then some (Char.ofNat (65 + 0)) else none) ∧
    ((c6fig.panels.getD 0 default).legend = true ↔ (0 : Nat) = 0) ∧
    ((c6fig.panels.getD 1 default).xlabel = some "amino acid position" ↔
      1 = c6genes.length - 1) :=
  ⟨((c6_figure_layout_amended.1 c6df c6genes c6fig (by decide) (by rfl)).2.2.2 0
      (by decide)).1,
   ((c6_figure_layout_amended.1 c6df c6genes c6fig (by decide) (by rfl)).2.2.2 0
      (by decide)).2.1,
   ((c6_figure_layout_amended.1 c6df c6genes c6fig (by decide) (by rfl)).2.2.2 1
      (by decide)).2.2.1⟩

/-- C9: `plot_figure` on a single gene mapping and on the corresponding
one-element sequence produce the same figure: the single-model argument
is normalized to a singleton list before any drawing. -/
theorem c9_single_gene_normalized :
    ∀ (df : List VRow) (g : Gene), plot_figure df (.inl g) = plot_figure df (.inr [g]) :=
  fun _ _ => rfl

end PlotSF
